import Mathlib

/-!
Shallow embedding of the CLOB client (`src/clob.rs`) of the
polymarket-autotrader repository: EIP-712 hashing inputs, ECDSA signature
formatting, L2 HMAC headers, order construction and the client state
machine.  Bytes are modelled as `Nat` values (0..255) in `List Nat`;
machine integers as `Nat`/`Int`; Rust `f64` values as exact dyadic
rationals with IEEE round-to-nearest-even multiplication.  The external
primitives keccak-256 (`tiny_keccak`), ECDSA signing (`k256`) and
HMAC-SHA256 (`hmac`) are abstracted as function parameters `K`, `S`, `H`:
every theorem quantifies over them, so nothing proved depends on their
internals.
-/

namespace Clob

/-! ## Constants (src/clob.rs lines 11-14) -/

def CLOB_URL : String := "https://clob.polymarket.com"

def CHAIN_ID : Nat := 137

def CTF_EXCHANGE : String := "C5d563A36AE78145C45a50134d48A1215220f80a"

def NEG_RISK_CTF_EXCHANGE : String := "4bFb41d5B3570DeFd03C39a9A4D8dE6Bd8B8982E"

/-! ## Hex encoding/decoding (the `hex` crate: lowercase encode, case-insensitive decode) -/

def hexDigitChar (n : Nat) : Char :=
  if n < 10 then Char.ofNat (48 + n) else Char.ofNat (87 + n)

/-- lowercase hex encoding of a byte list, two digits per byte (Rust `hex::encode`) -/
def hexEncode (bs : List Nat) : String :=
  String.mk ((bs.map (fun b => [hexDigitChar (b / 16 % 16), hexDigitChar (b % 16)])).flatten)

def hexDigitVal (c : Char) : Option Nat :=
  if 48 ≤ c.toNat ∧ c.toNat ≤ 57 then some (c.toNat - 48)
  else if 97 ≤ c.toNat ∧ c.toNat ≤ 102 then some (c.toNat - 87)
  else if 65 ≤ c.toNat ∧ c.toNat ≤ 70 then some (c.toNat - 55)
  else none

def hexDecodeChars : List Char → Option (List Nat)
  | [] => some []
  | [_] => none
  | c₁ :: c₂ :: rest =>
    match hexDigitVal c₁, hexDigitVal c₂, hexDecodeChars rest with
    | some h, some l, some bs => some ((16 * h + l) :: bs)
    | _, _, _ => none

/-- byte-list decoding of a hex string (Rust `hex::decode`): fails on odd length
or a non-hex digit -/
def hexDecode (s : String) : Option (List Nat) := hexDecodeChars s.data

/-! ## Bytes of a string.  All protocol strings here are ASCII, where UTF-8
bytes coincide with code points. -/

def strBytes (s : String) : List Nat := s.data.map Char.toNat

/-! ## IEEE binary64 ("f64") model.

A finite `f64` value is represented exactly as a dyadic rational
`m * 2 ^ e`.  Multiplication rounds the exact product to 53 significant
bits, ties to even, which is the IEEE semantics in the normal range (the
ranges exercised here neither overflow nor reach subnormals). -/

/-- bit length of a natural number, with explicit recursion fuel (enough for
inputs below 2 ^ 1100, far beyond any value that arises here) -/
def bitlenAux : Nat → Nat → Nat
  | 0, _ => 0
  | fuel+1, n => if n = 0 then 0 else bitlenAux fuel (n / 2) + 1

def bitlen (n : Nat) : Nat := bitlenAux 1100 n

/-- round a/b to the nearest integer, ties to even (meaningful for b > 0) -/
def rdiv (a b : Nat) : Nat :=
  let q := a / b
  let r := a % b
  if 2 * r < b then q
  else if b < 2 * r then q + 1
  else if q % 2 = 0 then q else q + 1

/-- a binary64 value, as an exact dyadic rational m * 2 ^ e -/
structure Fp where
  m : Int
  e : Int
  deriving DecidableEq, Repr

/-- round a/b at the scale 2 ^ e, i.e. the nearest integer to a / (b * 2 ^ e) -/
def scaledRound (a b : Nat) (e : Int) : Nat :=
  if 0 ≤ e then rdiv a (b * 2 ^ e.toNat) else rdiv (a * 2 ^ (-e).toNat) b

/-- the IEEE binary64 nearest to a / b (for a, b > 0 with the quotient in the
normal range); this is the value a Rust decimal literal such as `0.09` denotes -/
def fpOfRat (a b : Nat) : Fp :=
  let e : Int := (bitlen a : Int) - (bitlen b : Int) - 53
  let m := scaledRound a b e
  if m < 2 ^ 53 then ⟨m, e⟩ else ⟨scaledRound a b (e + 1), e + 1⟩

/-- round an exact dyadic m * 2 ^ e to 53 significant bits, ties to even -/
def fpRound (m : Int) (e : Int) : Fp :=
  let a := m.natAbs
  let s := bitlen a
  if s ≤ 53 then ⟨m, e⟩
  else
    let k := s - 53
    let r : Int := rdiv a (2 ^ k)
    ⟨if m < 0 then -r else r, e + k⟩

/-- IEEE binary64 multiplication: round the exact product -/
def fmul (x y : Fp) : Fp := fpRound (x.m * y.m) (x.e + y.e)

/-- Rust `as u64` applied to a binary64 value: truncate toward zero and
saturate (negative values to 0, values at or above 2^64 to 2^64 - 1) -/
def fpToU64 (x : Fp) : Nat :=
  if x.m ≤ 0 then 0
  else
    let v : Nat := if 0 ≤ x.e then x.m.toNat * 2 ^ x.e.toNat else x.m.toNat / 2 ^ (-x.e).toNat
    min v (2 ^ 64 - 1)

/-- the f64 value of the Rust constant `factor = 1_000_000u64` after `as f64`
(exact, being below 2^53) -/
def factorF : Fp := ⟨1000000, 0⟩

/-! ## Word encodings (src/clob.rs lines 246-259) -/

/-- big-endian 8-byte encoding of a u64 value (`u64::to_be_bytes`) -/
def beBytes8 (v : Nat) : List Nat :=
  [v / 2 ^ 56 % 256, v / 2 ^ 48 % 256, v / 2 ^ 40 % 256, v / 2 ^ 32 % 256,
   v / 2 ^ 24 % 256, v / 2 ^ 16 % 256, v / 2 ^ 8 % 256, v % 256]

/-- `u256_bytes`: a u64 as a 32-byte big-endian word (24 zero bytes then the
8 big-endian bytes) -/
def u256_bytes (v : Nat) : List Nat := List.replicate 24 0 ++ beBytes8 v

def u64_to_bytes32 (v : Nat) : List Nat := u256_bytes v

/-- `addr_to_bytes32`: left-zero-pad (at most 20 bytes of) an address into a
32-byte word -/
def addr_to_bytes32 (a : List Nat) : List Nat :=
  let n := min a.length 20
  List.replicate (32 - n) 0 ++ a.take n

/-- big-endian 16-byte encoding of a u128 value (`u128::to_be_bytes`) -/
def beBytes16 (v : Nat) : List Nat :=
  beBytes8 (v / 2 ^ 64 % 2 ^ 64) ++ beBytes8 (v % 2 ^ 64)

/-! ## base64url (the `base64` crate, `general_purpose::URL_SAFE`: padded
encoding; decoding requires canonical padding and zero trailing bits) -/

def b64Char (n : Nat) : Char :=
  if n < 26 then Char.ofNat (65 + n)
  else if n < 52 then Char.ofNat (71 + n)
  else if n < 62 then Char.ofNat (n - 4)
  else if n = 62 then Char.ofNat 45
  else Char.ofNat 95

def b64UrlEncodeChars : List Nat → List Char
  | [] => []
  | [b] => [b64Char (b / 4 % 64), b64Char (b % 4 * 16), Char.ofNat 61, Char.ofNat 61]
  | [b, c] =>
    [b64Char (b / 4 % 64), b64Char (b % 4 * 16 + c / 16 % 16), b64Char (c % 16 * 4),
     Char.ofNat 61]
  | b :: c :: d :: rest =>
    b64Char (b / 4 % 64) :: b64Char (b % 4 * 16 + c / 16 % 16) ::
    b64Char (c % 16 * 4 + d / 64 % 4) :: b64Char (d % 64) :: b64UrlEncodeChars rest

def b64UrlEncode (bs : List Nat) : String := String.mk (b64UrlEncodeChars bs)

def b64Val (c : Char) : Option Nat :=
  if 65 ≤ c.toNat ∧ c.toNat ≤ 90 then some (c.toNat - 65)
  else if 97 ≤ c.toNat ∧ c.toNat ≤ 122 then some (c.toNat - 71)
  else if 48 ≤ c.toNat ∧ c.toNat ≤ 57 then some (c.toNat + 4)
  else if c.toNat = 45 then some 62
  else if c.toNat = 95 then some 63
  else none

def b64UrlDecodeChars : List Char → Option (List Nat)
  | [] => some []
  | [c₁, c₂, p₁, p₂] =>
    if p₁ = Char.ofNat 61 ∧ p₂ = Char.ofNat 61 then
      match b64Val c₁, b64Val c₂ with
      | some v₁, some v₂ => if v₂ % 16 = 0 then some [v₁ * 4 + v₂ / 16] else none
      | _, _ => none
    else if p₂ = Char.ofNat 61 then
      match b64Val c₁, b64Val c₂, b64Val p₁ with
      | some v₁, some v₂, some v₃ =>
        if v₃ % 4 = 0 then some [v₁ * 4 + v₂ / 16, v₂ % 16 * 16 + v₃ / 4] else none
      | _, _, _ => none
    else
      match b64Val c₁, b64Val c₂, b64Val p₁, b64Val p₂ with
      | some v₁, some v₂, some v₃, some v₄ =>
        some [v₁ * 4 + v₂ / 16, v₂ % 16 * 16 + v₃ / 4, v₃ % 4 * 64 + v₄]
      | _, _, _, _ => none
  | c₁ :: c₂ :: c₃ :: c₄ :: rest =>
    match b64Val c₁, b64Val c₂, b64Val c₃, b64Val c₄, b64UrlDecodeChars rest with
    | some v₁, some v₂, some v₃, some v₄, some bs =>
      some ([v₁ * 4 + v₂ / 16, v₂ % 16 * 16 + v₃ / 4, v₃ % 4 * 64 + v₄] ++ bs)
    | _, _, _, _, _ => none
  | _ => none

def b64UrlDecode (s : String) : Option (List Nat) := b64UrlDecodeChars s.data

/-! ## EIP-712 hashing (src/clob.rs lines 261-327).

The keccak-256 primitive from the external `tiny_keccak` crate is abstracted
as the parameter `K : List Nat → List Nat`; every hashing definition and
theorem is relative to an arbitrary `K`. -/

/-- `domain_separator` (src/clob.rs lines 261-274) -/
def domain_separator (K : List Nat → List Nat) (name version : String) (chain_id : Nat)
    (contract : Option (List Nat)) : List Nat :=
  let type_hash :=
    if contract.isSome then
      K (strBytes "EIP712Domain(string name,string version,uint256 chainId,address verifyingContract)")
    else
      K (strBytes "EIP712Domain(string name,string version,uint256 chainId)")
  K (type_hash ++ K (strBytes name) ++ K (strBytes version) ++ u256_bytes chain_id ++
     (match contract with
      | some c => addr_to_bytes32 c
      | none => []))

/-- `clob_auth_hash` (src/clob.rs lines 276-287) -/
def clob_auth_hash (K : List Nat → List Nat) (address : List Nat) (timestamp : String)
    (nonce : List Nat) (message : String) : List Nat :=
  K (K (strBytes "ClobAuth(address address,string timestamp,uint256 nonce,string message)") ++
     addr_to_bytes32 address ++ K (strBytes timestamp) ++ nonce ++ K (strBytes message))

def decDigitsAux : List Char → Nat → Option Nat
  | [], acc => some acc
  | c :: rest, acc =>
    if 48 ≤ c.toNat ∧ c.toNat ≤ 57 then decDigitsAux rest (acc * 10 + (c.toNat - 48))
    else none

/-- Rust `str::parse::<u128>()`: an optional leading "+" sign, then at least one
ASCII decimal digit, value below 2^128; anything else is a parse error -/
def parseU128 (s : String) : Option Nat :=
  let ds :=
    match s.data with
    | c :: rest => if c = Char.ofNat 43 then rest else s.data
    | [] => []
  match ds with
  | [] => none
  | _ =>
    match decDigitsAux ds 0 with
    | some v => if v < 2 ^ 128 then some v else none
    | none => none

/-- `order_struct_hash` (src/clob.rs lines 290-318).  Note the token-id parse
result is taken with `unwrap_or(0)`, a silent default. -/
def order_struct_hash (K : List Nat → List Nat) (salt maker signer taker : List Nat)
    (token_id : String) (maker_amount taker_amount expiration nonce fee_rate_bps : Nat)
    (side sig_type : Nat) : List Nat :=
  let type_hash :=
    K (strBytes "Order(uint256 salt,address maker,address signer,address taker,uint256 tokenId,uint256 makerAmount,uint256 takerAmount,uint256 expiration,uint256 nonce,uint256 feeRateBps,uint8 side,uint8 signatureType)")
  let token_id_val : Nat := (parseU128 token_id).getD 0
  let token_id_bytes := List.replicate 16 0 ++ beBytes16 token_id_val
  K (type_hash ++ salt ++ addr_to_bytes32 maker ++ addr_to_bytes32 signer ++
     addr_to_bytes32 taker ++ token_id_bytes ++ u256_bytes maker_amount ++
     u256_bytes taker_amount ++ u256_bytes expiration ++ u256_bytes nonce ++
     u256_bytes fee_rate_bps ++ u256_bytes side ++ u256_bytes sig_type)

/-- `eip712_digest` (src/clob.rs lines 320-327) -/
def eip712_digest (K : List Nat → List Nat) (domain struct_hash : List Nat) : List Nat :=
  K ([0x19, 0x01] ++ domain ++ struct_hash)

/-! ## Signature formatting (src/clob.rs lines 192-200).

The deterministic ECDSA primitive `k256::ecdsa::sign_prehash` of the external
`k256` crate is abstracted as a parameter
`S : List Nat → List Nat × Nat` mapping a digest to the 64-byte `r ‖ s`
signature encoding and the recovery-id byte; it is a pure function, matching
the deterministic (RFC 6979) signing of the crate. -/

/-- `sign_digest`: hex-encode `r ‖ s ‖ (recoveryId + 27)` with a "0x" front tag -/
def sign_digest (S : List Nat → List Nat × Nat) (digest : List Nat) : String :=
  "0x" ++ hexEncode ((S digest).1 ++ [((S digest).2 + 27) % 256])

/-! ## Client state (src/clob.rs lines 21-29, 31-47).

The reqwest handle and the signing key are not part of the model: network
outcomes enter as explicit parameters and the signer enters as `S`. -/

structure ClobClient where
  address : List Nat
  api_key : String
  api_secret : String
  api_passphrase : String
  authenticated : Bool
  deriving DecidableEq, Repr

/-- `ClobClient::address()`: the lowercase hex form of the derived address -/
def address_string (c : ClobClient) : String := "0x" ++ hexEncode c.address

structure ApiKeyResponse where
  api_key : String
  secret : String
  passphrase : String
  deriving DecidableEq, Repr

/-- serde deserialization target for the order endpoint, every field defaulted -/
structure OrderResponse where
  success : Bool := false
  order_id : String := ""
  error_msg : Option String := none
  deriving DecidableEq, Repr

/-- outcome of the derive-api-key network call: transport failure, or a
response with an HTTP status and the result of parsing its body -/
inductive AuthNet where
  | failed
  | response (status : Nat) (parsed : Option ApiKeyResponse)
  deriving DecidableEq, Repr

/-- `reqwest::StatusCode::is_success()`: the 2xx range -/
def statusIsSuccess (s : Nat) : Bool := 200 ≤ s && s < 300

/-- `authenticate` (src/clob.rs lines 68-106), as a step function from the
client state and the network outcome to the new state and the result.  The
source assigns the credential fields and the flag only after the status check
and the body parse both succeed. -/
def authenticate (c : ClobClient) (net : AuthNet) : ClobClient × Except String Unit :=
  match net with
  | .failed => (c, .error "Failed to call derive-api-key")
  | .response status parsed =>
    if ¬ statusIsSuccess status then (c, .error "API key derivation failed")
    else
      match parsed with
      | none => (c, .error "Failed to parse API key response")
      | some creds =>
        ({ c with api_key := creds.api_key, api_secret := creds.secret,
                  api_passphrase := creds.passphrase, authenticated := true },
         .ok ())

/-! ## L2 auth headers (src/clob.rs lines 202-220).

HMAC-SHA256 from the external `hmac`/`sha2` crates is abstracted as the
parameter `H : List Nat → List Nat → List Nat` (key, then message).  The
timestamp, produced by `current_timestamp()` in the source, enters as an
explicit parameter.  `String.toUpper` models `str::to_uppercase` (identical
on the ASCII method names used). -/

def l2_headers (H : List Nat → List Nat → List Nat) (c : ClobClient)
    (timestamp method path body : String) : Except String (List (String × String)) :=
  let message := timestamp ++ method.toUpper ++ path ++ body
  match b64UrlDecode c.api_secret with
  | none => .error "Failed to decode API secret"
  | some secret_bytes =>
    let sig := b64UrlEncode (H secret_bytes (strBytes message))
    .ok [("POLY-ADDRESS", address_string c),
         ("POLY-SIGNATURE", sig),
         ("POLY-TIMESTAMP", timestamp),
         ("POLY-API-KEY", c.api_key),
         ("POLY-PASSPHRASE", c.api_passphrase)]

/-! ## Order construction and submission (src/clob.rs lines 108-190).

`serde_json` serializes `json!` maps with keys in lexicographic order (its
default `Map` is a `BTreeMap`), which `payloadJson` reproduces.  The random
salt (`rand::random`), the timestamp and the network outcome enter as
explicit parameters. -/

inductive OrderSide where
  | Buy
  | Sell
  deriving DecidableEq, Repr

/-- the fixed-point amounts of src/clob.rs lines 117-129: 6-decimal factor,
f64 products truncated by `as u64` -/
def amounts (side : OrderSide) (price size : Fp) : Nat × Nat :=
  match side with
  | .Buy => (fpToU64 (fmul (fmul price size) factorF), fpToU64 (fmul size factorF))
  | .Sell => (fpToU64 (fmul size factorF), fpToU64 (fmul (fmul price size) factorF))

/-- the twelve arguments handed to `order_struct_hash` (src/clob.rs lines 134-137) -/
structure OrderHashArgs where
  salt : List Nat
  maker : List Nat
  signer : List Nat
  taker : List Nat
  tokenId : String
  makerAmount : Nat
  takerAmount : Nat
  expiration : Nat
  nonce : Nat
  feeRateBps : Nat
  side : Nat
  sigType : Nat
  deriving DecidableEq, Repr

def order_args (c : ClobClient) (token_id : String) (price size : Fp) (side : OrderSide)
    (salt : Nat) : OrderHashArgs :=
  { salt := u64_to_bytes32 salt
    maker := c.address
    signer := c.address
    taker := List.replicate 20 0
    tokenId := token_id
    makerAmount := (amounts side price size).1
    takerAmount := (amounts side price size).2
    expiration := 0
    nonce := 0
    feeRateBps := 100
    side := if side = .Buy then 0 else 1
    sigType := 2 }

def order_struct_hash_args (K : List Nat → List Nat) (a : OrderHashArgs) : List Nat :=
  order_struct_hash K a.salt a.maker a.signer a.taker a.tokenId a.makerAmount
    a.takerAmount a.expiration a.nonce a.feeRateBps a.side a.sigType

/-- the serialized `order` object of the submission payload
(src/clob.rs lines 145-163) -/
structure OrderPayload where
  salt : String
  maker : String
  signer : String
  taker : String
  tokenId : String
  makerAmount : String
  takerAmount : String
  expiration : String
  nonce : String
  feeRateBps : String
  side : String
  signatureType : Nat
  signature : String
  owner : String
  orderType : String
  deriving DecidableEq, Repr

/-- `format!("0x{}", "0".repeat(40))` -/
def zero_address_string : String := "0x" ++ String.mk (List.replicate 40 (Char.ofNat 48))

def order_payload (c : ClobClient) (token_id : String) (price size : Fp) (side : OrderSide)
    (salt : Nat) (sig_hex : String) : OrderPayload :=
  { salt := Nat.repr salt
    maker := address_string c
    signer := address_string c
    taker := zero_address_string
    tokenId := token_id
    makerAmount := Nat.repr (amounts side price size).1
    takerAmount := Nat.repr (amounts side price size).2
    expiration := "0"
    nonce := "0"
    feeRateBps := "100"
    side := if side = .Buy then "BUY" else "SELL"
    signatureType := 2
    signature := sig_hex
    owner := address_string c
    orderType := "GTC" }

/-- serde_json string escaping for one character -/
def jsonEscapeChar (c : Char) : String :=
  if c = Char.ofNat 34 then "\\\""
  else if c = Char.ofNat 92 then "\\\\"
  else if c.toNat = 8 then "\\b"
  else if c.toNat = 9 then "\\t"
  else if c.toNat = 10 then "\\n"
  else if c.toNat = 12 then "\\f"
  else if c.toNat = 13 then "\\r"
  else if c.toNat < 32 then
    "\\u00" ++ String.mk [hexDigitChar (c.toNat / 16 % 16), hexDigitChar (c.toNat % 16)]
  else String.mk [c]

def jsonStr (s : String) : String :=
  "\"" ++ String.join (s.data.map jsonEscapeChar) ++ "\""

/-- `serde_json::to_string` of the submission payload, keys in the
lexicographic order of the default map -/
def payloadJson (p : OrderPayload) : String :=
  "\x7b\"order\":\x7b\"expiration\":" ++ jsonStr p.expiration ++
  ",\"feeRateBps\":" ++ jsonStr p.feeRateBps ++
  ",\"maker\":" ++ jsonStr p.maker ++
  ",\"makerAmount\":" ++ jsonStr p.makerAmount ++
  ",\"nonce\":" ++ jsonStr p.nonce ++
  ",\"salt\":" ++ jsonStr p.salt ++
  ",\"side\":" ++ jsonStr p.side ++
  ",\"signature\":" ++ jsonStr p.signature ++
  ",\"signatureType\":" ++ Nat.repr p.signatureType ++
  ",\"signer\":" ++ jsonStr p.signer ++
  ",\"taker\":" ++ jsonStr p.taker ++
  ",\"takerAmount\":" ++ jsonStr p.takerAmount ++
  ",\"tokenId\":" ++ jsonStr p.tokenId ++
  "\x7d,\"orderType\":" ++ jsonStr p.orderType ++
  ",\"owner\":" ++ jsonStr p.owner ++ "\x7d"

/-- `place_limit_order` (src/clob.rs lines 109-178): authentication guard,
exchange selection, amount computation, EIP-712 signing, payload assembly,
L2 headers, submission; a parsed response is returned as-is whether or not
`success` holds, while transport failure and an unparsable body are errors. -/
def place_limit_order (K : List Nat → List Nat) (S : List Nat → List Nat × Nat)
    (H : List Nat → List Nat → List Nat) (c : ClobClient) (token_id : String)
    (price size : Fp) (side : OrderSide) (neg_risk : Bool) (salt : Nat)
    (timestamp : String) (net : Except String (Option OrderResponse)) :
    Except String OrderResponse :=
  if ¬ c.authenticated then .error "Not authenticated"
  else
    match hexDecode (if neg_risk then NEG_RISK_CTF_EXCHANGE else CTF_EXCHANGE) with
    | none => .error "invalid exchange address hex"
    | some exchange_bytes =>
      let a := order_args c token_id price size side salt
      let order_domain := domain_separator K "CTF Exchange" "1" CHAIN_ID (some exchange_bytes)
      let order_hash := order_struct_hash_args K a
      let digest := eip712_digest K order_domain order_hash
      let sig_hex := sign_digest S digest
      let payload := order_payload c token_id price size side salt sig_hex
      match l2_headers H c timestamp "POST" "/order" (payloadJson payload) with
      | .error e => .error e
      | .ok _ =>
        match net with
        | .error e => .error e
        | .ok none => .error "Failed to parse order response"
        | .ok (some r) => .ok r

/-- `cancel_order` (src/clob.rs lines 181-190): authentication guard, L2
headers over the single-field body, DELETE; the result is
`status.is_success()` with no body parsing (`net = none` models a transport
failure of `send()`). -/
def cancel_order (H : List Nat → List Nat → List Nat) (c : ClobClient)
    (timestamp order_id : String) (net : Option Nat) : Except String Bool :=
  if ¬ c.authenticated then .error "Not authenticated"
  else
    let body_str := "\x7b\"orderID\":" ++ jsonStr order_id ++ "\x7d"
    match l2_headers H c timestamp "DELETE" "/order" body_str with
    | .error e => .error e
    | .ok _ =>
      match net with
      | none => .error "network error"
      | some status => .ok (statusIsSuccess status)

/-! ## Specification-side definition for the amount claim.

`specRoundAmount` follows the words of the specification — "makerAmount =
round(price·size·1e6)" — computing with exact rational arithmetic on the f64
input values and rounding the exact product to the nearest integer.  It
exists only to be compared with the implementation-side `amounts`. -/

/-- round a/b to the nearest natural number, halves away from zero (b > 0) -/
def roundNearestNat (a b : Nat) : Nat :=
  if b ≤ 2 * (a % b) then a / b + 1 else a / b

/-- Modelled from the spec: the claimed amount `round(price·size·1e6)`,
evaluated exactly on the dyadic input values -/
def specRoundAmount (p s : Fp) : Nat :=
  let n : Int := p.m * s.m * 1000000
  let e : Int := p.e + s.e
  if n ≤ 0 then 0
  else if 0 ≤ e then n.toNat * 2 ^ e.toNat
  else roundNearestNat n.toNat (2 ^ (-e).toNat)

/-! ## Fixture values used by the concrete witness theorems -/

def wClientAuth : ClobClient :=
  { address := List.replicate 20 1, api_key := "k", api_secret := "AAAA",
    api_passphrase := "p", authenticated := true }

def wClientUnauth : ClobClient :=
  { address := List.replicate 20 1, api_key := "", api_secret := "",
    api_passphrase := "", authenticated := false }

/-- an arbitrary stand-in for the abstract keccak parameter -/
def wK : List Nat → List Nat := fun bs => List.replicate 32 (bs.length % 256)

/-- an arbitrary stand-in for the abstract ECDSA signer parameter -/
def wS : List Nat → List Nat × Nat := fun _ => (List.replicate 64 0, 0)

/-- an arbitrary stand-in for the abstract HMAC parameter -/
def wH : List Nat → List Nat → List Nat := fun _ _ => [0]

/-- a well-formed exchange rejection -/
def wResp : OrderResponse := { success := false, order_id := "", error_msg := some "rejected" }

/-! ## Shared lemmas -/

theorem hexDecode_ctf_exchange :
    hexDecode CTF_EXCHANGE =
      some [197, 213, 99, 163, 106, 231, 129, 69, 196, 90, 80, 19, 77, 72, 161, 33,
            82, 32, 248, 10] := by
  decide

theorem hexDecode_neg_risk_exchange :
    hexDecode NEG_RISK_CTF_EXCHANGE =
      some [75, 251, 65, 213, 179, 87, 13, 239, 208, 60, 57, 169, 164, 216, 222, 107,
            216, 184, 152, 46] := by
  decide

/-! ## Claims -/

/-- Claim C1 (status: code_bug).  The specification requires a token-id that does
not parse as a decimal unsigned integer to surface an explicit error.  The code
instead parses with `unwrap_or(0)`: for the malformed token-id "abc" (which
`parseU128` rejects), `order_struct_hash` silently produces exactly the struct
hash of token-id "0", for every keccak function and all other fields — a
valid-looking hash for the wrong token, with no error. -/
theorem C1_token_id_silent_default :
    parseU128 "abc" = none ∧
    ∀ (K : List Nat → List Nat) (salt maker signer taker : List Nat)
      (ma ta ex n f sd st : Nat),
      order_struct_hash K salt maker signer taker "abc" ma ta ex n f sd st =
        order_struct_hash K salt maker signer taker "0" ma ta ex n f sd st := by
  exact ⟨rfl, fun K salt maker signer taker ma ta ex n f sd st => rfl⟩

/-- Claim C2, counterexample.  At price 0.09 (that is, the f64 nearest to
9/100, the value a caller passing the literal `0.09` supplies) and size 10,
the code computes makerAmount 899999 by truncating the f64 product, while the
claimed round(price·size·1e6) — evaluated exactly by `specRoundAmount` — is
900000.  The claim as stated is therefore false. -/
theorem C2_counterexample :
    (amounts .Buy (fpOfRat 9 100) ⟨10, 0⟩).1 = 899999 ∧
    specRoundAmount (fpOfRat 9 100) ⟨10, 0⟩ = 900000 ∧
    (amounts .Buy (fpOfRat 9 100) ⟨10, 0⟩).1 ≠
      specRoundAmount (fpOfRat 9 100) ⟨10, 0⟩ := by
  exact ⟨by decide, by decide, by decide⟩

/-- Claim C2 as amended: the amounts are the f64 products truncated toward
zero (Rust `as u64`), not rounded to nearest; for SELL the two values swap
roles relative to BUY; and at the scenario input (BUY, price 0.05, size 100)
the amounts are 5000000 and 100000000, serialized as "5000000" and
"100000000". -/
theorem C2_amounts_amended :
    (∀ (price size : Fp),
        amounts .Sell price size =
          ((amounts .Buy price size).2, (amounts .Buy price size).1)) ∧
    amounts .Buy (fpOfRat 5 100) ⟨100, 0⟩ = (5000000, 100000000) ∧
    (∀ (c : ClobClient) (salt : Nat) (sig_hex : String),
        (order_payload c "123" (fpOfRat 5 100) ⟨100, 0⟩ .Buy salt sig_hex).makerAmount =
          "5000000" ∧
        (order_payload c "123" (fpOfRat 5 100) ⟨100, 0⟩ .Buy salt sig_hex).takerAmount =
          "100000000") := by
  refine ⟨fun price size => rfl, by decide, fun c salt sig_hex => ⟨?_, ?_⟩⟩ <;> rfl

/-- Claim C3 (confirmed).  Whenever `authenticate` returns an error — transport
failure, non-2xx status, or an unparsable body — the resulting client state is
exactly the input state: no credential field is written and the authenticated
flag is untouched, so a failed call is retriable from the same state. -/
theorem C3_authenticate_atomic (c : ClobClient) (net : AuthNet) (e : String)
    (h : (authenticate c net).2 = .error e) : (authenticate c net).1 = c := by
  cases net with
  | failed => rfl
  | response status parsed =>
    by_cases hs : statusIsSuccess status
    · cases parsed with
      | none => simp [authenticate, hs]
      | some creds => simp [authenticate, hs] at h
    · simp [authenticate, hs]

theorem C3_authenticate_atomic_witness :
    (authenticate wClientUnauth .failed).2 = .error "Failed to call derive-api-key" ∧
    (authenticate wClientUnauth .failed).1 = wClientUnauth :=
  ⟨rfl, C3_authenticate_atomic wClientUnauth .failed "Failed to call derive-api-key" rfl⟩

/-- Claim C4 (confirmed, with the external k256 signer modelled as the
abstract deterministic function S).  The signed value is
keccak256(0x19 ‖ 0x01 ‖ domainSeparator ‖ structHash) — `sign_digest` passes
the digest to S unchanged, with no re-hashing — and the output is the
hex-encoded 65-byte concatenation r ‖ s ‖ (recoveryId + 27); signing the same
digest twice gives the identical signature string. -/
theorem C4_digest_and_signature (K : List Nat → List Nat)
    (S : List Nat → List Nat × Nat) (domain struct_hash d d₂ sig : List Nat)
    (recid : Nat) (hd : d₂ = d) (hS : S d = (sig, recid)) (hrec : recid < 2) :
    eip712_digest K domain struct_hash = K ([0x19, 0x01] ++ domain ++ struct_hash) ∧
    sign_digest S d = "0x" ++ hexEncode (sig ++ [recid + 27]) ∧
    sign_digest S d₂ = sign_digest S d := by
  refine ⟨rfl, ?_, by rw [hd]⟩
  have h27 : (recid + 27) % 256 = recid + 27 := Nat.mod_eq_of_lt (by omega)
  simp [sign_digest, hS, h27]

theorem C4_digest_and_signature_witness :
    ([1] : List Nat) = [1] ∧ wS [1] = (List.replicate 64 0, 0) ∧ (0 : Nat) < 2 ∧
    (eip712_digest wK [2] [3] = wK ([0x19, 0x01] ++ [2] ++ [3]) ∧
     sign_digest wS [1] = "0x" ++ hexEncode (List.replicate 64 0 ++ [0 + 27]) ∧
     sign_digest wS [1] = sign_digest wS [1]) :=
  ⟨rfl, rfl, by decide,
   C4_digest_and_signature wK wS [2] [3] [1] [1] (List.replicate 64 0) 0 rfl rfl (by decide)⟩

/-- Claim C5 (confirmed).  `domain_separator` is a pure function of name,
version, chain id and the optional contract: with a 20-byte contract supplied
it hashes the 4-field type hash followed by the hashed name, hashed version,
the chain id as a 32-byte big-endian word and the contract left-zero-padded
to 32 bytes; without a contract it hashes the 3-field type hash and the same
first three words. -/
theorem C5_domain_separator_encoding (K : List Nat → List Nat)
    (name version : String) (chain_id : Nat) (contract : List Nat)
    (h : contract.length = 20) :
    domain_separator K name version chain_id (some contract) =
      K (K (strBytes "EIP712Domain(string name,string version,uint256 chainId,address verifyingContract)") ++
         K (strBytes name) ++ K (strBytes version) ++ u256_bytes chain_id ++
         (List.replicate 12 0 ++ contract)) ∧
    (List.replicate 12 (0 : Nat) ++ contract).length = 32 ∧
    domain_separator K name version chain_id none =
      K (K (strBytes "EIP712Domain(string name,string version,uint256 chainId)") ++
         K (strBytes name) ++ K (strBytes version) ++ u256_bytes chain_id) := by
  have htake : contract.take 20 = contract := by
    rw [← h]
    exact List.take_length contract
  have hpad : addr_to_bytes32 contract = List.replicate 12 0 ++ contract := by
    simp [addr_to_bytes32, h, htake]
  refine ⟨?_, by simp [h], ?_⟩
  · have hsome : domain_separator K name version chain_id (some contract) =
        K (K (strBytes "EIP712Domain(string name,string version,uint256 chainId,address verifyingContract)") ++
           K (strBytes name) ++ K (strBytes version) ++ u256_bytes chain_id ++
           addr_to_bytes32 contract) := rfl
    rw [hsome, hpad]
  · have hnone : domain_separator K name version chain_id none =
        K ((K (strBytes "EIP712Domain(string name,string version,uint256 chainId)") ++
            K (strBytes name) ++ K (strBytes version) ++ u256_bytes chain_id) ++
           ([] : List Nat)) := rfl
    rw [hnone, List.append_nil]

theorem C5_domain_separator_encoding_witness :
    ([197, 213, 99, 163, 106, 231, 129, 69, 196, 90, 80, 19, 77, 72, 161, 33,
      82, 32, 248, 10] : List Nat).length = 20 ∧
    (domain_separator wK "CTF Exchange" "1" 137
        (some [197, 213, 99, 163, 106, 231, 129, 69, 196, 90, 80, 19, 77, 72, 161, 33,
               82, 32, 248, 10]) =
      wK (wK (strBytes "EIP712Domain(string name,string version,uint256 chainId,address verifyingContract)") ++
          wK (strBytes "CTF Exchange") ++ wK (strBytes "1") ++ u256_bytes 137 ++
          (List.replicate 12 0 ++
           [197, 213, 99, 163, 106, 231, 129, 69, 196, 90, 80, 19, 77, 72, 161, 33,
            82, 32, 248, 10])) ∧
     (List.replicate 12 (0 : Nat) ++
       [197, 213, 99, 163, 106, 231, 129, 69, 196, 90, 80, 19, 77, 72, 161, 33,
        82, 32, 248, 10]).length = 32 ∧
     domain_separator wK "CTF Exchange" "1" 137 none =
      wK (wK (strBytes "EIP712Domain(string name,string version,uint256 chainId)") ++
          wK (strBytes "CTF Exchange") ++ wK (strBytes "1") ++ u256_bytes 137)) :=
  ⟨by decide,
   C5_domain_separator_encoding wK "CTF Exchange" "1" 137
     [197, 213, 99, 163, 106, 231, 129, 69, 196, 90, 80, 19, 77, 72, 161, 33,
      82, 32, 248, 10] (by decide)⟩

/-- Claim C6 (confirmed, with HMAC-SHA256 abstracted as H).  Whenever the
stored api secret base64url-decodes to `key`, the L2 header computation
builds the message timestamp ‖ UPPERCASE(method) ‖ path ‖ body, HMACs it
under `key`, base64url-encodes the tag, and emits exactly the five headers
carrying the address, that signature, the timestamp, the api key and the
passphrase. -/
theorem C6_l2_headers_shape (H : List Nat → List Nat → List Nat) (c : ClobClient)
    (timestamp method path body : String) (key : List Nat)
    (h : b64UrlDecode c.api_secret = some key) :
    l2_headers H c timestamp method path body =
      .ok [("POLY-ADDRESS", address_string c),
           ("POLY-SIGNATURE",
            b64UrlEncode (H key (strBytes (timestamp ++ method.toUpper ++ path ++ body)))),
           ("POLY-TIMESTAMP", timestamp),
           ("POLY-API-KEY", c.api_key),
           ("POLY-PASSPHRASE", c.api_passphrase)] := by
  unfold l2_headers
  rw [h]

theorem C6_l2_headers_shape_witness :
    b64UrlDecode wClientAuth.api_secret = some [0, 0, 0] ∧
    l2_headers wH wClientAuth "1700000000" "post" "/order" "" =
      .ok [("POLY-ADDRESS", address_string wClientAuth),
           ("POLY-SIGNATURE",
            b64UrlEncode (wH [0, 0, 0]
              (strBytes ("1700000000" ++ "post".toUpper ++ "/order" ++ "")))),
           ("POLY-TIMESTAMP", "1700000000"),
           ("POLY-API-KEY", wClientAuth.api_key),
           ("POLY-PASSPHRASE", wClientAuth.api_passphrase)] :=
  ⟨rfl, C6_l2_headers_shape wH wClientAuth "1700000000" "post" "/order" "" [0, 0, 0] rfl⟩

/-- Claim C7 (confirmed).  On an authenticated client whose secret decodes,
`place_limit_order` returns a parsed exchange response as a normal value —
in particular a well-formed rejection with success = false is not an error —
while a transport failure or an unparsable body is surfaced as an error. -/
theorem C7_rejection_is_not_error (K : List Nat → List Nat)
    (S : List Nat → List Nat × Nat) (H : List Nat → List Nat → List Nat)
    (c : ClobClient) (token_id : String) (price size : Fp) (side : OrderSide)
    (neg_risk : Bool) (salt : Nat) (timestamp : String) (r : OrderResponse)
    (e : String) (key : List Nat) (hauth : c.authenticated = true)
    (hkey : b64UrlDecode c.api_secret = some key) :
    place_limit_order K S H c token_id price size side neg_risk salt timestamp
      (.ok (some r)) = .ok r ∧
    place_limit_order K S H c token_id price size side neg_risk salt timestamp
      (.error e) = .error e ∧
    place_limit_order K S H c token_id price size side neg_risk salt timestamp
      (.ok none) = .error "Failed to parse order response" := by
  refine ⟨?_, ?_, ?_⟩ <;>
    cases neg_risk <;>
      simp [place_limit_order, hauth, hexDecode_ctf_exchange, hexDecode_neg_risk_exchange,
            l2_headers, hkey]

theorem C7_rejection_is_not_error_witness :
    wClientAuth.authenticated = true ∧
    b64UrlDecode wClientAuth.api_secret = some [0, 0, 0] ∧ wResp.success = false ∧
    (place_limit_order wK wS wH wClientAuth "123" (fpOfRat 5 100) ⟨100, 0⟩ .Buy false 7
        "1700000000" (.ok (some wResp)) = .ok wResp ∧
     place_limit_order wK wS wH wClientAuth "123" (fpOfRat 5 100) ⟨100, 0⟩ .Buy false 7
        "1700000000" (.error "connection reset") = .error "connection reset" ∧
     place_limit_order wK wS wH wClientAuth "123" (fpOfRat 5 100) ⟨100, 0⟩ .Buy false 7
        "1700000000" (.ok none) = .error "Failed to parse order response") :=
  ⟨rfl, rfl, rfl,
   C7_rejection_is_not_error wK wS wH wClientAuth "123" (fpOfRat 5 100) ⟨100, 0⟩ .Buy
     false 7 "1700000000" wResp "connection reset" [0, 0, 0] rfl rfl⟩

/-- Claim C8 (confirmed).  On an authenticated client whose secret decodes,
`cancel_order` with a delivered HTTP status returns exactly
`status.is_success()` — true precisely on the 2xx range, with no body
parsing (the model never inspects a response body) — and status 404 yields
`Ok false`, not an error. -/
theorem C8_cancel_status_only (H : List Nat → List Nat → List Nat) (c : ClobClient)
    (timestamp order_id : String) (status : Nat) (key : List Nat)
    (hauth : c.authenticated = true) (hkey : b64UrlDecode c.api_secret = some key) :
    cancel_order H c timestamp order_id (some status) = .ok (statusIsSuccess status) ∧
    statusIsSuccess status = decide (200 ≤ status ∧ status < 300) ∧
    cancel_order H c timestamp order_id (some 404) = .ok false := by
  refine ⟨?_, ?_, ?_⟩
  · simp [cancel_order, hauth, l2_headers, hkey]
  · simp [statusIsSuccess, Bool.decide_and]
  · simp [cancel_order, hauth, l2_headers, hkey, statusIsSuccess]

theorem C8_cancel_status_only_witness :
    wClientAuth.authenticated = true ∧
    b64UrlDecode wClientAuth.api_secret = some [0, 0, 0] ∧
    (cancel_order wH wClientAuth "1700000000" "oid" (some 204) =
        .ok (statusIsSuccess 204) ∧
     statusIsSuccess 204 = decide (200 ≤ 204 ∧ 204 < 300) ∧
     cancel_order wH wClientAuth "1700000000" "oid" (some 404) = .ok false) :=
  ⟨rfl, rfl, C8_cancel_status_only wH wClientAuth "1700000000" "oid" 204 [0, 0, 0] rfl rfl⟩

/-- Claim C9 (confirmed).  On an unauthenticated client both operations
return the "Not authenticated" error at once: the result is this error for
every keccak, signer, HMAC function and every network outcome, so no
signing, header computation or network interaction can influence it, and the
model returns no modified client state (the source takes `&self`). -/
theorem C9_requires_authentication (K : List Nat → List Nat)
    (S : List Nat → List Nat × Nat) (H : List Nat → List Nat → List Nat)
    (c : ClobClient) (token_id : String) (price size : Fp) (side : OrderSide)
    (neg_risk : Bool) (salt : Nat) (timestamp order_id : String)
    (net : Except String (Option OrderResponse)) (cnet : Option Nat)
    (h : c.authenticated = false) :
    place_limit_order K S H c token_id price size side neg_risk salt timestamp net =
      .error "Not authenticated" ∧
    cancel_order H c timestamp order_id cnet = .error "Not authenticated" := by
  constructor <;> simp [place_limit_order, cancel_order, h]

theorem C9_requires_authentication_witness :
    wClientUnauth.authenticated = false ∧
    (place_limit_order wK wS wH wClientUnauth "123" (fpOfRat 5 100) ⟨100, 0⟩ .Buy false 7
        "1700000000" (.ok (some wResp)) = .error "Not authenticated" ∧
     cancel_order wH wClientUnauth "1700000000" "oid" (some 200) =
        .error "Not authenticated") :=
  ⟨rfl,
   C9_requires_authentication wK wS wH wClientUnauth "123" (fpOfRat 5 100) ⟨100, 0⟩ .Buy
     false 7 "1700000000" "oid" (.ok (some wResp)) (some 200) rfl⟩

/-- Claim C10 (confirmed).  For every input, the order handed to the struct
hash and the order serialized in the submission payload agree: maker and
signer are the account address (serialized as its 0x-hex form, which is also
the owner), the taker is the all-zero 20-byte address (serialized as 0x
followed by 40 zeros), and the salt, tokenId, amounts and side of the signed
fields match the serialized ones. -/
theorem C10_signed_serialized_agree (c : ClobClient) (token_id : String)
    (price size : Fp) (side : OrderSide) (salt : Nat) (sig_hex : String) :
    (order_args c token_id price size side salt).maker = c.address ∧
    (order_args c token_id price size side salt).signer = c.address ∧
    (order_args c token_id price size side salt).taker = List.replicate 20 0 ∧
    (order_payload c token_id price size side salt sig_hex).maker = address_string c ∧
    (order_payload c token_id price size side salt sig_hex).signer = address_string c ∧
    (order_payload c token_id price size side salt sig_hex).owner = address_string c ∧
    (order_payload c token_id price size side salt sig_hex).taker = zero_address_string ∧
    zero_address_string = "0x" ++ hexEncode (List.replicate 20 0) ∧
    (order_args c token_id price size side salt).salt = u64_to_bytes32 salt ∧
    (order_payload c token_id price size side salt sig_hex).salt = Nat.repr salt ∧
    (order_args c token_id price size side salt).tokenId = token_id ∧
    (order_payload c token_id price size side salt sig_hex).tokenId = token_id ∧
    (order_payload c token_id price size side salt sig_hex).makerAmount =
      Nat.repr (order_args c token_id price size side salt).makerAmount ∧
    (order_payload c token_id price size side salt sig_hex).takerAmount =
      Nat.repr (order_args c token_id price size side salt).takerAmount ∧
    (order_payload c token_id price size side salt sig_hex).side =
      (if (order_args c token_id price size side salt).side = 0 then "BUY" else "SELL") ∧
    (order_payload c token_id price size side salt sig_hex).signature = sig_hex := by
  cases side <;>
    refine ⟨rfl, rfl, rfl, rfl, rfl, rfl, rfl, by decide, rfl, rfl, rfl, rfl, rfl, rfl,
            ?_, rfl⟩ <;>
      simp [order_args, order_payload]

end Clob
